import Mathlib

/-!
Verification of the ARI (Application Readiness Index) pipeline.

Shallow embedding of the repository's JavaScript source:
  * `runESLintAnalysis`, `runNpmAudit`, `validateRepoByCloning`,
    `computeAriScore` from the clone-and-analyse module;
  * `generateLLMExplanation` from `generateLLMExplanation.js`.

External effects (the git clone, the filesystem reads, the tool
invocations, the HTTP call, JSON parsing of external text) are abstracted
as environment-supplied outcomes: each effectful primitive's result is a
field of an environment record, carried as `Except JsError _` (a thrown
JavaScript error) or a plain value.  JavaScript numbers arising in the
scoring arithmetic (integer counts combined with the exact binary
fractions 1, 0.25, 15, 5) are modelled as rationals; `Math.round` is
floor of `x + 1/2`, which agrees with JavaScript's half-up rounding.
-/

/-- A thrown JavaScript error: an optional `code` property (Node sets
`"ENOENT"` on a missing file) and a `message`. -/
structure JsError where
  code : Option String := none
  message : String
deriving DecidableEq, Repr

/-- Result objects returned by `validateRepoByCloning`: the fields every
exit path sets.  (The acceptance path would add more fields, but it never
completes — see `referenceErrorGenerateLLM`.) -/
structure JsResult where
  isValid : Bool
  message : String
deriving DecidableEq, Repr

/-- One entry of the array returned by `eslint.lintFiles`. -/
structure LintFileResult where
  errorCount : Nat
  warningCount : Nat
deriving DecidableEq, Repr

/-- What `runESLintAnalysis` returns.  On the success path the source
object has no `failed` property (reading it yields `undefined`, falsy),
modelled as `failed := false`. -/
structure ESLintOutput where
  errors : Nat
  warnings : Nat
  failed : Bool := false
deriving DecidableEq, Repr

/-- What `runNpmAudit` returns. -/
structure AuditOutput where
  critical : Nat
  high : Nat
deriving DecidableEq, Repr

/-- The `metadata.vulnerabilities` summary of `npm audit --json` output;
either counter may be absent (`summary.critical || 0`). -/
structure VulnSummary where
  critical : Option Nat := none
  high : Option Nat := none
deriving DecidableEq, Repr

/-- `runESLintAnalysis` (lines 25–53): run the lint tool over the tree;
on success sum the per-file error and warning counts; on any thrown
error return the fixed conservative penalty `errors = 20, warnings = 50`
with `failed = true`. -/
def runESLintAnalysis (lintRun : Except JsError (List LintFileResult)) :
    ESLintOutput :=
  match lintRun with
  | .ok results =>
      { errors := results.foldl (fun acc r => acc + r.errorCount) 0
        warnings := results.foldl (fun acc r => acc + r.warningCount) 0
        failed := false }
  | .error _ => { errors := 20, warnings := 50, failed := true }

/-- `runNpmAudit` (lines 55–78): run `npm audit --json` and read
`metadata.vulnerabilities`; the counters start at 0 and any thrown
execution or parse error is caught, leaving `{critical := 0, high := 0}`. -/
def runNpmAudit (auditRun : Except JsError (Option VulnSummary)) :
    AuditOutput :=
  match auditRun with
  | .ok (some summary) =>
      { critical := summary.critical.getD 0, high := summary.high.getD 0 }
  | .ok none => { critical := 0, high := 0 }
  | .error _ => { critical := 0, high := 0 }

/-- The `eslint` sub-object of the merged `staticAnalysisResults`
(lines 150–153).  Note it carries only the two counts: the lint runner's
`failed` flag is not copied over. -/
structure EslintCounts where
  errorCount : Nat
  warningCount : Nat
deriving DecidableEq, Repr

/-- The `npmAudit` sub-object of the merged `staticAnalysisResults`
(lines 154–157). -/
structure NpmAuditCounts where
  criticalVulnerabilities : Nat
  highVulnerabilities : Nat
deriving DecidableEq, Repr

/-- The merged `staticAnalysisResults` object (lines 149–158). -/
structure StaticAnalysisResults where
  eslint : EslintCounts
  npmAudit : NpmAuditCounts
deriving DecidableEq, Repr

/-- The `metrics` object of a score result (lines 257–262; the source
spells the second field `eslint_warnnings`). -/
structure Metrics where
  eslint_errors : Nat
  eslint_warnnings : Nat
  critical_vulns : Nat
  high_vulns : Nat
deriving DecidableEq, Repr

/-- What `computeAriScore` returns. -/
structure ScoreResult where
  ari_score : Int
  status : String
  metrics : Metrics
deriving DecidableEq, Repr

/-- JavaScript `Math.round` on the values arising here: floor of `x + 1/2`
(half-up rounding). -/
def jsRound (q : ℚ) : Int := Rat.floor (q + 1/2)

/-- The status label (lines 247–252): default `"High Risk"`, overridden to
`"Low Risk"` at 80 and above, else `"Moderate Risk"` at 60 and above. -/
def statusFor (roundedScore : Int) : String :=
  if roundedScore ≥ 80 then "Low Risk"
  else if roundedScore ≥ 60 then "Moderate Risk"
  else "High Risk"

/-- `computeAriScore` (lines 219–264): weighted deduction from a starting
score of 100, clamped to `[0, 100]`, rounded, and labelled. -/
def computeAriScore (analysis : StaticAnalysisResults) : ScoreResult :=
  let errors := analysis.eslint.errorCount
  let warnings := analysis.eslint.warningCount
  let critical := analysis.npmAudit.criticalVulnerabilities
  let high := analysis.npmAudit.highVulnerabilities
  let deduction : ℚ :=
    (errors : ℚ) * 1 + (warnings : ℚ) * (1/4) +
    (critical : ℚ) * 15 + (high : ℚ) * 5
  let rawScore : ℚ := 100 - deduction
  let finalScore : ℚ := max 0 (min 100 rawScore)
  let roundedScore : Int := jsRound finalScore
  { ari_score := roundedScore
    status := statusFor roundedScore
    metrics :=
      { eslint_errors := errors
        eslint_warnnings := warnings
        critical_vulns := critical
        high_vulns := high } }

/-- The score in closed integer form: the deduction in quarter points is
`4e + w + 60c + 20h`, and half-up rounding of a quarter-integer `q/4`
clamped to `[0, 100]` is `(clamp + 2) / 4` in integer division. -/
def ariClosed (e w c h : Nat) : Int :=
  (max 0 (min 400 (400 - (4 * (e : Int) + w + 60 * c + 20 * h))) + 2) / 4

/-! ## The explanation generator (`generateLLMExplanation.js`) -/

/-- A JSON value, as produced by `JSON.parse`. -/
inductive Json where
  | null : Json
  | bool (b : Bool) : Json
  | num (n : Int) : Json
  | str (s : String) : Json
  | arr (elems : List Json) : Json
  | obj (fields : List (String × Json)) : Json

/-- The decoded response body of the chat-completion call: the only part
the source reads is `data.choices?.[0]?.message?.content`, an optional
string. -/
structure LLMData where
  content : Option String
deriving DecidableEq, Repr

/-- The `fetch` response: its `ok` flag, HTTP `status`, and the outcome of
`response.json()` (which throws on an undecodable body). -/
structure HttpResp where
  ok : Bool
  status : Nat
  jsonBody : Except JsError LLMData

/-- Environment of one `generateLLMExplanation` call: the credential read
from the process environment, the outcome of the `fetch`, and the outcome
of `JSON.parse` applied to the message content. -/
structure LLMEnv where
  apiKey : Option String
  fetchResult : Except JsError HttpResp
  parsedContent : Except JsError Json

/-- The `context` sub-object of the argument the acceptance path would
build for `generateLLMExplanation` (lines 163–169 of the pipeline
module — dead code there, since the callee is unbound; the shape
documents the generator's expected argument). -/
structure LLMContext where
  has_tests : Bool
  eslint_failed : Bool
deriving DecidableEq, Repr

structure LLMInput where
  ari_score : Int
  status : String
  metrics : Metrics
  context : LLMContext
deriving DecidableEq, Repr

/-- `generateLLMExplanation` (lines 7–93): return `null` when the
credential is absent; inside a catch-all `try`, return `null` when the
`fetch` throws, when `response.ok` is false, when decoding the body
throws, when the message content is absent or empty (`if (!content)`),
or when `JSON.parse(content)` throws; otherwise return whatever value
the content parsed to, unexamined. -/
def generateLLMExplanation (env : LLMEnv) (_input : LLMInput) : Option Json :=
  match env.apiKey with
  | none => none
  | some _ =>
    match env.fetchResult with
    | .error _ => none
    | .ok response =>
      if !response.ok then none
      else
        match response.jsonBody with
        | .error _ => none
        | .ok data =>
          match data.content with
          | none => none
          | some content =>
            if content.isEmpty then none
            else
              match env.parsedContent with
              | .error _ => none
              | .ok value => some value

/-- Modelled from the spec: the Explanation shape the response is expected
to match — a JSON object with a string `summary` and three string-array
fields.  The source never checks this; the definition exists to compare
the spec's expectation with what the code returns. -/
def isStringArrayJson : Json → Bool
  | .arr elems => elems.all fun j => match j with | .str _ => true | _ => false
  | _ => false

/-- Modelled from the spec: membership test for the Explanation shape. -/
def matchesExplanationShape (j : Json) : Bool :=
  match j with
  | .obj fields =>
    (match fields.lookup "summary" with
     | some (.str _) => true
     | _ => false) &&
    (match fields.lookup "top_risks" with
     | some a => isStringArrayJson a
     | none => false) &&
    (match fields.lookup "why_score_is_low_or_high" with
     | some a => isStringArrayJson a
     | none => false) &&
    (match fields.lookup "improvement_suggestions" with
     | some a => isStringArrayJson a
     | none => false)
  | _ => false

/-! ## The orchestration pipeline (`validateRepoByCloning`, lines 80–217) -/

/-- Everything the pipeline's effectful primitives can report, up to the
`finally` block: the outcome of the `git clone`, the measured on-disk
size of the clone (`du -sb`), the outcome of reading `package.json`, the
outcome of `JSON.parse` on its contents, whether `npm install` throws,
and the two analyzers' tool outcomes.  (No environment is needed for the
explanation call: the module never imports or defines
`generateLLMExplanation`, so resolving the callee at line 162 throws
before any request could be made.) -/
structure CoreEnv where
  cloneResult : Except JsError Unit
  sizeBytes : Nat
  readFileResult : Except JsError String
  parseResult : Except JsError Json
  installFails : Bool
  eslintOutcome : Except JsError (List LintFileResult)
  auditOutcome : Except JsError (Option VulnSummary)

/-- A full run's environment: the core plus whether the `fs.rm` in the
`finally` block throws. -/
structure PipelineEnv extends CoreEnv where
  rmThrows : Bool

/-- Observable effects of one run: which stages were reached, the
argument object delivered to an explanation call (always `none`: the
unbound callee at line 162 throws before the argument object of
lines 163–169 is ever constructed), whether the `finally` block's
`fs.rm` was executed, and whether the temp directory still exists once
the run returns. -/
structure Trace where
  installAttempted : Bool
  analyzersRan : Bool
  llmInput : Option LLMInput
  rmAttempted : Bool
  workingAreaExists : Bool
deriving DecidableEq, Repr

/-- The trace of a run that rejected before the analysis stage (the
`finally` fields are filled in by `validateRepoByCloning`). -/
def emptyTrace : Trace :=
  { installAttempted := false
    analyzersRan := false
    llmInput := none
    rmAttempted := false
    workingAreaExists := true }

def MAX_CLONE_SIZE_BYTES : Nat := 50 * 1024 * 1024

/-- The `ReferenceError` raised at line 162: the call expression's
callee `generateLLMExplanation` is resolved before its argument list is
evaluated, and the identifier is never imported or defined in the
module, so the call throws at once; like every `ReferenceError` it has
no `code` property.  (The `...existingResult` spread of the acceptance
return at line 183 is dead code behind this throw.) -/
def referenceErrorGenerateLLM : JsError :=
  { code := none, message := "generateLLMExplanation is not defined" }

/-- The inner `catch (readParseError)` (lines 186–199): `ENOENT` means
the manifest was missing; every other caught error is reported as
invalid JSON with the error's message appended. -/
def readParseCatch (e : JsError) : JsResult :=
  if e.code = some "ENOENT" then
    { isValid := false
      message := "\x27package.json\x27 NOT found in the repository." }
  else
    { isValid := false
      message := "\x27package.json\x27 found but is NOT valid JSON: " ++ e.message }

/-- The outer `catch (gitError)` (lines 200–205): the message is truncated
to 200 characters. -/
def cloneFailedResult (g : JsError) : JsResult :=
  { isValid := false
    message := "Clone Failed: " ++ g.message.take 200 ++ "..." }

/-- `(bytes / (1024*1024)).toFixed(2)`: megabytes to two decimals,
rounded half-up in hundredths. -/
def twoDecimalMB (bytes : Nat) : String :=
  let hundredths := (bytes * 100 + 524288) / 1048576
  let r := hundredths % 100
  toString (hundredths / 100) ++ "." ++
    (if r < 10 then "0" ++ toString r else toString r)

/-- The size-rejection message (lines 105–113);
`MAX_CLONE_SIZE_BYTES / (1024*1024)` renders as `50`. -/
def sizeExceededMessage (bytes : Nat) : String :=
  "Clone Failed: Repository size (" ++ twoDecimalMB bytes ++
    " MB) exceeds the 50 MB limit."

def sizeExceededResult (bytes : Nat) : JsResult :=
  { isValid := false, message := sizeExceededMessage bytes }

/-- The body of `validateRepoByCloning` before the `finally` block:
clone, measure size against the ceiling, read and parse `package.json`,
install dependencies (failure caught and ignored), run both analyzers,
score — and then attempt the explanation call of line 162, whose callee
`generateLLMExplanation` is unbound in this module: the resulting
`ReferenceError` is thrown before the argument object is evaluated and
the inner catch converts it to an invalid-JSON rejection, so the
acceptance return (lines 172–185) is never reached. -/
def pipelineCore (env : CoreEnv) : JsResult × Trace :=
  match env.cloneResult with
  | .error gitError => (cloneFailedResult gitError, emptyTrace)
  | .ok _ =>
    if env.sizeBytes > MAX_CLONE_SIZE_BYTES then
      (sizeExceededResult env.sizeBytes, emptyTrace)
    else
      match env.readFileResult with
      | .error e => (readParseCatch e, emptyTrace)
      | .ok _fileContent =>
        match env.parseResult with
        | .error e => (readParseCatch e, emptyTrace)
        | .ok _packageJson =>
          let eslintResult := runESLintAnalysis env.eslintOutcome
          let auditResult := runNpmAudit env.auditOutcome
          let staticAnalysisResults : StaticAnalysisResults :=
            { eslint :=
                { errorCount := eslintResult.errors
                  warningCount := eslintResult.warnings }
              npmAudit :=
                { criticalVulnerabilities := auditResult.critical
                  highVulnerabilities := auditResult.high } }
          let _scoringResult := computeAriScore staticAnalysisResults
          -- Line 162 resolves the callee `generateLLMExplanation` before
          -- evaluating the argument object of lines 163–169, so the
          -- ReferenceError fires here and no LLM input is ever built.
          (readParseCatch referenceErrorGenerateLLM,
           { installAttempted := true
             analyzersRan := true
             llmInput := none
             rmAttempted := false
             workingAreaExists := true })

/-- `validateRepoByCloning` (lines 80–217): the body above wrapped in the
`finally` block, which always runs `fs.rm` on the temp directory; an
`fs.rm` failure is caught and logged, leaving the result untouched (but
the directory behind). -/
def validateRepoByCloning (env : PipelineEnv) : JsResult × Trace :=
  let run := pipelineCore env.toCoreEnv
  (run.1,
   { run.2 with
      rmAttempted := true
      workingAreaExists := env.rmThrows })

/-! ## Spec-side definitions and concrete environments -/

/-- Modelled from the spec: `clamp(x, lo, hi)` as used in the scoring
algorithm of §4.4. -/
def clamp (x lo hi : ℚ) : ℚ := max lo (min hi x)

/-- A run whose clone succeeds but whose measured size is one byte over
the 50 MiB ceiling. -/
def envOversize : PipelineEnv :=
  { cloneResult := .ok ()
    sizeBytes := 52428801
    readFileResult := .error { code := some "ENOENT", message := "unreachable" }
    parseResult := .error { message := "unreachable" }
    installFails := false
    eslintOutcome := .error { message := "unreachable" }
    auditOutcome := .ok none
    rmThrows := false }

/-- An otherwise-successful run: small clone, readable and parseable
manifest, clean analyzers. -/
def envClean : PipelineEnv :=
  { cloneResult := .ok ()
    sizeBytes := 1024
    readFileResult := .ok "pkg"
    parseResult := .ok (Json.obj [("name", Json.str "demo")])
    installFails := false
    eslintOutcome := .ok []
    auditOutcome := .ok none
    rmThrows := false }

/-- A run identical to `envClean` except that the lint tool throws. -/
def envLintFails : PipelineEnv :=
  { envClean with
      eslintOutcome := .error { message := "ESLint could not run" } }

/-- An explanation-generator environment whose HTTP call succeeds and
whose message content parses to the JSON number `42` — valid JSON that
is not an Explanation-shaped object. -/
def envLLMNumber : LLMEnv :=
  { apiKey := some "key"
    fetchResult := .ok
      { ok := true, status := 200, jsonBody := .ok { content := some "42" } }
    parsedContent := .ok (Json.num 42) }

/-- A fixed score-and-metrics argument for exercising the explanation
generator. -/
def inputLLM : LLMInput :=
  { ari_score := 100
    status := "Low Risk"
    metrics := { eslint_errors := 0, eslint_warnnings := 0,
                 critical_vulns := 0, high_vulns := 0 }
    context := { has_tests := false, eslint_failed := false } }

theorem jsRound_eq_floor (q : ℚ) : jsRound q = ⌊q + 1/2⌋ := by
  rw [jsRound, Rat.floor_def', Rat.floor_def]

theorem computeAriScore_eq_closed (e w c h : Nat) :
    computeAriScore ⟨⟨e, w⟩, ⟨c, h⟩⟩ =
      { ari_score := ariClosed e w c h
        status := statusFor (ariClosed e w c h)
        metrics := ⟨e, w, c, h⟩ } := by
  have key : jsRound (max 0 (min 100 (100 -
      ((e : ℚ) * 1 + (w : ℚ) * (1/4) + (c : ℚ) * 15 + (h : ℚ) * 5)))) =
      ariClosed e w c h := by
    set d : Int := 4 * (e : Int) + w + 60 * c + 20 * h with hd
    have h4 : (0 : ℚ) < ((4 : ℕ) : ℚ) := by norm_num
    have h1 : (100 : ℚ) -
        ((e : ℚ) * 1 + (w : ℚ) * (1/4) + (c : ℚ) * 15 + (h : ℚ) * 5) =
        ((400 - d : ℤ) : ℚ) / ((4 : ℕ) : ℚ) := by
      rw [hd]; push_cast; ring
    have h2 : (100 : ℚ) = ((400 : ℤ) : ℚ) / ((4 : ℕ) : ℚ) := by norm_num
    have h3 : (0 : ℚ) = ((0 : ℤ) : ℚ) / ((4 : ℕ) : ℚ) := by norm_num
    rw [h1]
    rw [show min (100 : ℚ) (((400 - d : ℤ) : ℚ) / ((4 : ℕ) : ℚ)) =
        ((min 400 (400 - d) : ℤ) : ℚ) / ((4 : ℕ) : ℚ) by
      rw [h2, min_div_div_right h4.le]; push_cast; ring_nf]
    rw [show max (0 : ℚ) (((min 400 (400 - d) : ℤ) : ℚ) / ((4 : ℕ) : ℚ)) =
        ((max 0 (min 400 (400 - d)) : ℤ) : ℚ) / ((4 : ℕ) : ℚ) by
      rw [h3, max_div_div_right h4.le]; push_cast; ring_nf]
    rw [jsRound_eq_floor]
    rw [show ((max 0 (min 400 (400 - d)) : ℤ) : ℚ) / ((4 : ℕ) : ℚ) + 1/2 =
        ((max 0 (min 400 (400 - d)) + 2 : ℤ) : ℚ) / ((4 : ℕ) : ℚ) by
      push_cast; ring]
    rw [Rat.floor_intCast_div_natCast]
    rfl
  simp only [computeAriScore, key]

example : (computeAriScore ⟨⟨10, 8⟩, ⟨1, 2⟩⟩).ari_score = 63 := by
  rw [computeAriScore_eq_closed]; decide
example : (computeAriScore ⟨⟨10, 8⟩, ⟨1, 2⟩⟩).status = "Moderate Risk" := by
  rw [computeAriScore_eq_closed]; decide
example : (computeAriScore ⟨⟨0, 0⟩, ⟨0, 0⟩⟩).ari_score = 100 := by
  rw [computeAriScore_eq_closed]; decide
example : (computeAriScore ⟨⟨500, 0⟩, ⟨0, 0⟩⟩).ari_score = 0 := by
  rw [computeAriScore_eq_closed]; decide


/-! ## Helper lemmas -/

theorem pipelineCore_isValid_false (env : CoreEnv) :
    (pipelineCore env).1.isValid = false := by
  obtain ⟨c, sz, rf, pr, i, eo, ao⟩ := env
  cases c with
  | error g => rfl
  | ok u =>
    simp only [pipelineCore]
    split
    · rfl
    · cases rf with
      | error e => simp only [readParseCatch]; split <;> rfl
      | ok s =>
        cases pr with
        | error e => simp only [readParseCatch]; split <;> rfl
        | ok j => rfl

theorem pipelineCore_success_result (env : CoreEnv)
    (h1 : env.cloneResult = .ok ())
    (h2 : ¬ env.sizeBytes > MAX_CLONE_SIZE_BYTES)
    (s : String) (h3 : env.readFileResult = .ok s)
    (j : Json) (h4 : env.parseResult = .ok j) :
    (pipelineCore env).1 = readParseCatch referenceErrorGenerateLLM := by
  obtain ⟨c, sz, rf, pr, i, eo, ao⟩ := env
  subst h1 h3 h4
  simp only [pipelineCore]
  rw [if_neg h2]

theorem statusFor_eq_iff (x : Int) :
    (statusFor x = "High Risk" ↔ x < 60) ∧
    (statusFor x = "Moderate Risk" ↔ 60 ≤ x ∧ x < 80) ∧
    (statusFor x = "Low Risk" ↔ 80 ≤ x) := by
  unfold statusFor
  split_ifs with h1 h2 <;>
    refine ⟨⟨fun hs => ?_, fun hx => ?_⟩, ⟨fun hs => ?_, fun hx => ?_⟩,
      ⟨fun hs => ?_, fun hx => ?_⟩⟩ <;>
    first
      | rfl
      | omega
      | exact absurd hs (by decide)

/-! ## The claims -/

/-- C1 counterexample: at an otherwise-successful run (clone ok, size
within the ceiling, `package.json` read and parsed, both analyzers and
scoring complete) the run is indeed rejected, but the reported message
names the unbound callee `generateLLMExplanation` — the line-162 call
throws before the acceptance return's `...existingResult` spread (line
183, dead code) could ever be evaluated — refuting the claim's asserted
mechanism and exact message. -/
theorem existingResult_message_never_produced :
    (validateRepoByCloning envClean).1.isValid = false ∧
    (validateRepoByCloning envClean).1.message =
      "\x27package.json\x27 found but is NOT valid JSON: generateLLMExplanation is not defined" ∧
    (validateRepoByCloning envClean).1.message ≠
      "\x27package.json\x27 found but is NOT valid JSON: existingResult is not defined" :=
  ⟨rfl, rfl, by decide⟩

/-- C1 as amended: every run of `validateRepoByCloning` returns
`isValid = false`; in particular, when the clone succeeds, the size
check passes, and `package.json` is read and parses (analysis and
scoring then complete), the never-imported callee of the line-162 call
raises `ReferenceError: generateLLMExplanation is not defined`, which
the read/parse catch reports as the invalid-JSON rejection
`'package.json' found but is NOT valid JSON: generateLLMExplanation is
not defined`; hence no input ever yields a result with
`isValid = true`. -/
theorem validateRepoByCloning_never_accepts (env : PipelineEnv) :
    (validateRepoByCloning env).1.isValid = false ∧
    (env.cloneResult = .ok () → env.sizeBytes ≤ MAX_CLONE_SIZE_BYTES →
      (∃ s, env.readFileResult = .ok s) → (∃ j, env.parseResult = .ok j) →
      (validateRepoByCloning env).1.message =
        "\x27package.json\x27 found but is NOT valid JSON: generateLLMExplanation is not defined") := by
  constructor
  · exact pipelineCore_isValid_false env.toCoreEnv
  · intro h1 h2 hs hj
    obtain ⟨s, h3⟩ := hs
    obtain ⟨j, h4⟩ := hj
    show (pipelineCore env.toCoreEnv).1.message = _
    rw [pipelineCore_success_result env.toCoreEnv h1 (by omega) s h3 j h4]
    rfl

/-- C2: `computeAriScore` is a total function; for all non-negative
integer counts its score is the half-up rounding of the deduction
formula clamped to `[0, 100]`, hence an integer in `[0, 100]` however
large the deduction; and at all-zero counts the score is 100 with
status Low Risk. -/
theorem computeAriScore_clamped_total (e w c h : Nat) :
    (computeAriScore ⟨⟨e, w⟩, ⟨c, h⟩⟩).ari_score =
      jsRound (clamp (100 -
        ((e : ℚ) * 1 + (w : ℚ) * (1/4) + (c : ℚ) * 15 + (h : ℚ) * 5)) 0 100) ∧
    0 ≤ (computeAriScore ⟨⟨e, w⟩, ⟨c, h⟩⟩).ari_score ∧
    (computeAriScore ⟨⟨e, w⟩, ⟨c, h⟩⟩).ari_score ≤ 100 ∧
    (computeAriScore ⟨⟨0, 0⟩, ⟨0, 0⟩⟩).ari_score = 100 ∧
    (computeAriScore ⟨⟨0, 0⟩, ⟨0, 0⟩⟩).status = "Low Risk" := by
  refine ⟨rfl, ?_, ?_, ?_, ?_⟩
  · rw [computeAriScore_eq_closed]
    show (0 : Int) ≤ ariClosed e w c h
    unfold ariClosed
    omega
  · rw [computeAriScore_eq_closed]
    show ariClosed e w c h ≤ 100
    unfold ariClosed
    omega
  · rw [computeAriScore_eq_closed]; decide
  · rw [computeAriScore_eq_closed]; decide

/-- C3: the status is High Risk exactly below score 60, Moderate Risk
exactly in `[60, 80)`, Low Risk exactly at 80 and above; and the worked
example `errors=10, warnings=8, criticalVulns=1, highVulns=2` scores 63
with status Moderate Risk. -/
theorem computeAriScore_status_boundaries (a : StaticAnalysisResults) :
    ((computeAriScore a).status = "High Risk" ↔
      (computeAriScore a).ari_score < 60) ∧
    ((computeAriScore a).status = "Moderate Risk" ↔
      60 ≤ (computeAriScore a).ari_score ∧ (computeAriScore a).ari_score < 80) ∧
    ((computeAriScore a).status = "Low Risk" ↔
      80 ≤ (computeAriScore a).ari_score) ∧
    computeAriScore ⟨⟨10, 8⟩, ⟨1, 2⟩⟩ =
      { ari_score := 63, status := "Moderate Risk"
        metrics := { eslint_errors := 10, eslint_warnnings := 8,
                     critical_vulns := 1, high_vulns := 2 } } := by
  have hst : (computeAriScore a).status =
      statusFor ((computeAriScore a).ari_score) := rfl
  obtain ⟨H1, H2, H3⟩ := statusFor_eq_iff ((computeAriScore a).ari_score)
  refine ⟨?_, ?_, ?_, ?_⟩
  · rw [hst]; exact H1
  · rw [hst]; exact H2
  · rw [hst]; exact H3
  · rw [computeAriScore_eq_closed]; decide

/-- C4: whenever the lint tool invocation throws, `runESLintAnalysis`
absorbs the error and returns exactly the conservative penalty
`errors = 20, warnings = 50` with the `failed` flag set, independent of
the underlying error. -/
theorem runESLintAnalysis_failure_penalty (e : JsError) :
    runESLintAnalysis (.error e) =
      { errors := 20, warnings := 50, failed := true } := rfl

/-- C5: whenever the audit tool execution or its output parsing throws,
`runNpmAudit` absorbs the error and returns exactly
`{critical := 0, high := 0}`, independent of the underlying error. -/
theorem runNpmAudit_failure_zeroes (e : JsError) :
    runNpmAudit (.error e) = { critical := 0, high := 0 } := rfl

/-- C6: when the clone succeeds but the measured size exceeds the 50 MiB
ceiling (and the cleanup `fs.rm` does not itself throw), the run returns
the size rejection, never attempts dependency installation, either
analyzer, or the explanation call, still executes the cleanup, and the
working area no longer exists when the run returns. -/
theorem sizeExceeded_rejects_without_analysis (env : PipelineEnv)
    (hclone : env.cloneResult = .ok ())
    (hsize : env.sizeBytes > MAX_CLONE_SIZE_BYTES)
    (hrm : env.rmThrows = false) :
    (validateRepoByCloning env).1.isValid = false ∧
    (validateRepoByCloning env).1.message = sizeExceededMessage env.sizeBytes ∧
    (validateRepoByCloning env).2.installAttempted = false ∧
    (validateRepoByCloning env).2.analyzersRan = false ∧
    (validateRepoByCloning env).2.llmInput = none ∧
    (validateRepoByCloning env).2.rmAttempted = true ∧
    (validateRepoByCloning env).2.workingAreaExists = false := by
  obtain ⟨⟨c, sz, rf, pr, i, eo, ao⟩, rm⟩ := env
  subst hclone hrm
  simp only [validateRepoByCloning, pipelineCore]
  rw [if_pos hsize]
  simp [sizeExceededResult, emptyTrace]

/-- C6 witness: the guarantees at a concrete run one byte over the
ceiling. -/
theorem sizeExceeded_rejects_without_analysis_witness :
    (validateRepoByCloning envOversize).1.isValid = false ∧
    (validateRepoByCloning envOversize).1.message =
      sizeExceededMessage envOversize.sizeBytes ∧
    (validateRepoByCloning envOversize).2.installAttempted = false ∧
    (validateRepoByCloning envOversize).2.analyzersRan = false ∧
    (validateRepoByCloning envOversize).2.llmInput = none ∧
    (validateRepoByCloning envOversize).2.rmAttempted = true ∧
    (validateRepoByCloning envOversize).2.workingAreaExists = false :=
  sizeExceeded_rejects_without_analysis envOversize rfl (by decide) rfl

/-- C7: on every exit path the `finally` block runs the working-area
destruction before the pipeline returns, and whether that destruction
itself throws has no effect on the returned result. -/
theorem workingArea_cleanup_unconditional (env : PipelineEnv) (b : Bool) :
    (validateRepoByCloning env).2.rmAttempted = true ∧
    (validateRepoByCloning { env with rmThrows := b }).1 =
      (validateRepoByCloning env).1 :=
  ⟨rfl, rfl⟩

/-- C8: `generateLLMExplanation` is a total function into an optional
value — it never propagates an error to its caller — and it returns
`none` whenever the credential is absent, the `fetch` throws, the
response is non-ok, decoding the response body throws, the message
content is absent, or the content fails to parse as JSON. -/
theorem generateLLMExplanation_null_on_failure (env : LLMEnv) (input : LLMInput) :
    (env.apiKey = none → generateLLMExplanation env input = none) ∧
    (∀ e, env.fetchResult = .error e → generateLLMExplanation env input = none) ∧
    (∀ resp, env.fetchResult = .ok resp → resp.ok = false →
      generateLLMExplanation env input = none) ∧
    (∀ resp e, env.fetchResult = .ok resp → resp.jsonBody = .error e →
      generateLLMExplanation env input = none) ∧
    (∀ resp data, env.fetchResult = .ok resp → resp.jsonBody = .ok data →
      data.content = none → generateLLMExplanation env input = none) ∧
    (∀ e, env.parsedContent = .error e → generateLLMExplanation env input = none) := by
  obtain ⟨k, f, p⟩ := env
  refine ⟨?_, ?_, ?_, ?_, ?_, ?_⟩
  · intro hk; subst hk; rfl
  · intro e hf
    cases k with
    | none => rfl
    | some key => subst hf; rfl
  · intro resp hf hok
    cases k with
    | none => rfl
    | some key => subst hf; simp [generateLLMExplanation, hok]
  · intro resp e hf hb
    cases k with
    | none => rfl
    | some key =>
      subst hf
      cases hok : resp.ok
      · simp [generateLLMExplanation, hok]
      · simp [generateLLMExplanation, hok, hb]
  · intro resp data hf hb hc
    cases k with
    | none => rfl
    | some key =>
      subst hf
      cases hok : resp.ok
      · simp [generateLLMExplanation, hok]
      · simp [generateLLMExplanation, hok, hb, hc]
  · intro e hp
    cases k with
    | none => rfl
    | some key =>
      cases f with
      | error g => rfl
      | ok resp =>
        cases hok : resp.ok
        · simp [generateLLMExplanation, hok]
        · cases hb : resp.jsonBody with
          | error g => simp [generateLLMExplanation, hok, hb]
          | ok data =>
            cases hc : data.content with
            | none => simp [generateLLMExplanation, hok, hb, hc]
            | some content =>
              have hp2 : p = Except.error e := hp
              subst hp2
              simp [generateLLMExplanation, hok, hb, hc, ite_self]

/-- C9 counterexample: a response whose message content parses as the
JSON number `42` — valid JSON that does not match the Explanation shape —
is returned as-is by `generateLLMExplanation`, not replaced by `null`:
the source performs no shape validation on the parsed value. -/
theorem llm_shape_deviation_returned :
    matchesExplanationShape (Json.num 42) = false ∧
    generateLLMExplanation envLLMNumber inputLLM = some (Json.num 42) :=
  ⟨rfl, rfl⟩

/-- C9 as amended: for every LLM response whose message content parses
as JSON, `generateLLMExplanation` returns the parsed value unexamined,
whether or not it matches the Explanation shape; no shape check is
performed. -/
theorem llm_returns_parsed_json_unvalidated (env : LLMEnv) (input : LLMInput)
    (key : String) (resp : HttpResp) (data : LLMData) (content : String)
    (j : Json)
    (hk : env.apiKey = some key) (hf : env.fetchResult = .ok resp)
    (hok : resp.ok = true) (hb : resp.jsonBody = .ok data)
    (hc : data.content = some content) (hne : content.isEmpty = false)
    (hp : env.parsedContent = .ok j) :
    generateLLMExplanation env input = some j := by
  obtain ⟨k, f, p⟩ := env
  have hk2 : k = some key := hk
  have hf2 : f = Except.ok resp := hf
  have hp2 : p = Except.ok j := hp
  subst hk2 hf2 hp2
  simp [generateLLMExplanation, hok, hb, hc, hne]

/-- C9 witness: the amended claim at the concrete environment of the
counterexample. -/
theorem llm_returns_parsed_json_unvalidated_witness :
    generateLLMExplanation envLLMNumber inputLLM = some (Json.num 42) :=
  llm_returns_parsed_json_unvalidated envLLMNumber inputLLM "key"
    { ok := true, status := 200, jsonBody := .ok { content := some "42" } }
    { content := some "42" } "42" (Json.num 42)
    rfl rfl rfl rfl rfl rfl rfl

/-- C10: at a run where the lint tool fails, `runESLintAnalysis` itself
reports `failed = true`, yet the merged analysis record drops the flag
— the `Metrics` carried in the score result holds exactly the four
counts and has no `lintFailed` field (evaluated here at the merged
counts of that run) — and no explanation context is ever delivered at
all, because the line-162 call throws at its unbound callee before the
argument object (including the dead `staticAnalysisResults.eslint.failed`
read of line 168) is evaluated. -/
theorem lintFailed_flag_dropped :
    runESLintAnalysis envLintFails.eslintOutcome =
      { errors := 20, warnings := 50, failed := true } ∧
    computeAriScore ⟨⟨20, 50⟩, ⟨0, 0⟩⟩ =
      { ari_score := 68, status := "Moderate Risk"
        metrics := { eslint_errors := 20, eslint_warnnings := 50,
                     critical_vulns := 0, high_vulns := 0 } } ∧
    (validateRepoByCloning envLintFails).2.analyzersRan = true ∧
    (validateRepoByCloning envLintFails).2.llmInput = none := by
  refine ⟨rfl, ?_, rfl, rfl⟩
  rw [computeAriScore_eq_closed]
  decide
